import Mathlib

/-!
Shallow embedding of the money_fund_pro calculation core.

JavaScript numbers are modeled as exact rationals (`ℚ`): every numeric
literal in the embedded source is a small decimal, exactly representable,
and the arithmetic the code performs on them (add, sub, mul, div, compare)
matches rational arithmetic on those values.  `Infinity` appears only as a
bracket upper bound that the code never reads; it is modeled as `none`.

Embedded files:
  * `src/src/tax-engine.js`        → namespace `TaxEngine`
  * `src/public/js/tax-calculator.js` (src/unnamed/part_007) → namespace `Frontend`
  * `src/docs/js/tax-calculator.js`   → namespace `DocsCalc`
  * `src/public/js/data-utils.js`     → namespace `DataUtils`
-/

unseal Rat.mul Rat.add Rat.sub Rat.inv Rat.ofScientific

namespace MoneyFundPro

/-- One federal tax bracket: `{ min, max, rate }`.  `max := none` models
`Infinity`; the bracket scan only ever reads `min` and `rate`. -/
structure Bracket where
  min : ℚ
  max : Option ℚ
  rate : ℚ
deriving DecidableEq

/-- Tax treatment record `{ federalTaxable, stateTaxable }`. -/
structure Treatment where
  federalTaxable : Bool
  stateTaxable : Bool
deriving DecidableEq

/-- A fund as consumed by the calculators: name, ticker symbol, category
key, gross 7-day yield and expense ratio (percentage points). -/
structure Fund where
  fundName : String
  symbol : String
  category : String
  grossYield : ℚ
  expenseRatio : ℚ
deriving DecidableEq

/-- The user tax profile `{ income, filingStatus, state }`. -/
structure UserProfile where
  income : ℚ
  filingStatus : String
  state : String
deriving DecidableEq

/-- The enriched per-fund result object returned by
`calculateTaxEquivalentYield` (backend and frontend return the same
field set). -/
structure CalcResult where
  fundName : String
  symbol : String
  category : String
  grossYield : ℚ
  expenseRatio : ℚ
  netYield : ℚ
  effectiveTaxRate : ℚ
  taxEquivalentYield : ℚ
  annualReturn : ℚ
  federalRate : ℚ
  stateRate : ℚ
deriving DecidableEq

/-- The downward bracket scan shared verbatim by the backend and frontend
resolvers: `for (let i = brackets.length - 1; i >= 0; i--) if (income >
brackets[i].min) return brackets[i].rate; return brackets[0].rate;`.
Scanning from the top down and returning on the first strict `>` is the
first match of the reversed list.  `brackets[0]` on an empty table would be
a JS runtime error; the tables are never empty, and the `[]` case is given
the junk value `0`. -/
def bracketScanGT (brackets : List Bracket) (income : ℚ) : ℚ :=
  match brackets.reverse.find? (fun b => decide (b.min < income)) with
  | some b => b.rate
  | none =>
    match brackets with
    | [] => 0
    | b :: _ => b.rate

namespace TaxEngine

/-- `TAX_BRACKETS_2024.single` from src/src/tax-engine.js. -/
def singleBrackets : List Bracket :=
  [ { min := 0, max := some 11600, rate := 10/100 },
    { min := 11600, max := some 47150, rate := 12/100 },
    { min := 47150, max := some 100525, rate := 22/100 },
    { min := 100525, max := some 191950, rate := 24/100 },
    { min := 191950, max := some 243725, rate := 32/100 },
    { min := 243725, max := some 609350, rate := 35/100 },
    { min := 609350, max := none, rate := 37/100 } ]

/-- `TAX_BRACKETS_2024.married` from src/src/tax-engine.js. -/
def marriedBrackets : List Bracket :=
  [ { min := 0, max := some 23200, rate := 10/100 },
    { min := 23200, max := some 94300, rate := 12/100 },
    { min := 94300, max := some 201050, rate := 22/100 },
    { min := 201050, max := some 383900, rate := 24/100 },
    { min := 383900, max := some 487450, rate := 32/100 },
    { min := 487450, max := some 731200, rate := 35/100 },
    { min := 731200, max := none, rate := 37/100 } ]

/-- `TAX_BRACKETS_2024.head` from src/src/tax-engine.js. -/
def headBrackets : List Bracket :=
  [ { min := 0, max := some 16550, rate := 10/100 },
    { min := 16550, max := some 63100, rate := 12/100 },
    { min := 63100, max := some 100500, rate := 22/100 },
    { min := 100500, max := some 191950, rate := 24/100 },
    { min := 191950, max := some 243700, rate := 32/100 },
    { min := 243700, max := some 609350, rate := 35/100 },
    { min := 609350, max := none, rate := 37/100 } ]

/-- `TAX_BRACKETS_2024[filingStatus] || TAX_BRACKETS_2024.single`:
property lookup with fallback to the single table. -/
def bracketsFor (filingStatus : String) : List Bracket :=
  if filingStatus = "single" then singleBrackets
  else if filingStatus = "married" then marriedBrackets
  else if filingStatus = "head" then headBrackets
  else singleBrackets

/-- `STATE_TAX_RATES` from src/src/tax-engine.js. -/
def STATE_TAX_RATES : List (String × ℚ) :=
  [ ("AL", 50/1000), ("CA", 133/1000), ("CO", 44/1000), ("CT", 69/1000),
    ("FL", 0/1000), ("GA", 58/1000), ("IL", 49/1000), ("MA", 50/1000),
    ("MO", 47/1000), ("NY", 109/1000), ("NC", 45/1000), ("OH", 39/1000),
    ("PA", 31/1000), ("TX", 0/1000), ("VA", 58/1000), ("WA", 0/1000) ]

/-- `TAX_TREATMENT` from src/src/tax-engine.js (four categories). -/
def TAX_TREATMENT : List (String × Treatment) :=
  [ ("taxable", { federalTaxable := true, stateTaxable := true }),
    ("treasury", { federalTaxable := true, stateTaxable := false }),
    ("municipal", { federalTaxable := false, stateTaxable := true }),
    ("state-municipal", { federalTaxable := false, stateTaxable := false }) ]

/-- `TAX_TREATMENT[category] || TAX_TREATMENT.taxable`. -/
def treatmentFor (category : String) : Treatment :=
  match TAX_TREATMENT.find? (fun p => decide (p.1 = category)) with
  | some p => p.2
  | none => { federalTaxable := true, stateTaxable := true }

/-- `calculateFederalMarginalRate(income, filingStatus)`. -/
def calculateFederalMarginalRate (income : ℚ) (filingStatus : String) : ℚ :=
  bracketScanGT (bracketsFor filingStatus) income

/-- `calculateStateMarginalRate(state)`: `STATE_TAX_RATES[state] || 0`.
A table hit of zero is falsy in JS and falls through to the same `0`. -/
def calculateStateMarginalRate (state : String) : ℚ :=
  match STATE_TAX_RATES.find? (fun p => decide (p.1 = state)) with
  | some p => p.2
  | none => 0

/-- `getEffectiveTaxRate(category, federalRate, stateRate)`. -/
def getEffectiveTaxRate (category : String) (federalRate stateRate : ℚ) : ℚ :=
  let treatment := treatmentFor category
  let federalPortion : ℚ := if treatment.federalTaxable then federalRate else 0
  let statePortion : ℚ :=
    if treatment.stateTaxable then
      if treatment.federalTaxable then stateRate * (1 - federalRate) else stateRate
    else 0
  federalPortion + statePortion

/-- `calculateTaxEquivalentYield(fund, userProfile)`.  Note: the backend
applies the taxable identity only when `fund.category === 'taxable'`. -/
def calculateTaxEquivalentYield (fund : Fund) (userProfile : UserProfile) : CalcResult :=
  let federalRate := calculateFederalMarginalRate userProfile.income userProfile.filingStatus
  let stateRate := calculateStateMarginalRate userProfile.state
  let netYield := fund.grossYield - Fund.expenseRatio fund
  let effectiveTaxRate := getEffectiveTaxRate fund.category federalRate stateRate
  let taxEquivalentYield :=
    if fund.category = "taxable" then netYield
    else if effectiveTaxRate < 1 then netYield / (1 - effectiveTaxRate) else netYield
  let annualReturn := 10000 * (taxEquivalentYield / 100)
  { fundName := fund.fundName, symbol := fund.symbol, category := fund.category,
    grossYield := fund.grossYield, expenseRatio := Fund.expenseRatio fund,
    netYield := netYield, effectiveTaxRate := effectiveTaxRate,
    taxEquivalentYield := taxEquivalentYield, annualReturn := annualReturn,
    federalRate := federalRate, stateRate := stateRate }

end TaxEngine

/-- Descending order on calculated results, as induced by the sort
comparator `(a, b) => b.taxEquivalentYield - a.taxEquivalentYield` used by
both `calculateAllFunds` implementations. -/
def teyGE (a b : CalcResult) : Prop :=
  b.taxEquivalentYield ≤ a.taxEquivalentYield

instance (a b : CalcResult) : Decidable (teyGE a b) :=
  inferInstanceAs (Decidable (_ ≤ _))

instance : IsTotal CalcResult teyGE :=
  ⟨fun a b => le_total b.taxEquivalentYield a.taxEquivalentYield⟩

instance : IsTrans CalcResult teyGE :=
  ⟨fun _ _ _ h1 h2 => le_trans h2 h1⟩

/-- `results.sort((a, b) => b.taxEquivalentYield - a.taxEquivalentYield)`.
`Array.prototype.sort` is a stable sort (ES2019); a stable sort's output is
determined by the comparator, so it is modeled by insertion sort on the
induced total preorder. -/
def sortResults (results : List CalcResult) : List CalcResult :=
  List.insertionSort teyGE results

namespace TaxEngine

/-- `calculateAllFunds(funds, userProfile)` from src/src/tax-engine.js. -/
def calculateAllFunds (funds : List Fund) (userProfile : UserProfile) : List CalcResult :=
  sortResults (funds.map (fun fund => calculateTaxEquivalentYield fund userProfile))

end TaxEngine

namespace Frontend

/-- Frontend treatment record: `{ federalTaxable, stateTaxable, description }`. -/
structure FTreatment where
  federalTaxable : Bool
  stateTaxable : Bool
  description : String
deriving DecidableEq

/-- `TAX_BRACKETS_2024.single` from the frontend tax-calculator
(src/unnamed/part_007); identical numbers to the backend table. -/
def singleBrackets : List Bracket :=
  [ { min := 0, max := some 11600, rate := 1/10 },
    { min := 11600, max := some 47150, rate := 12/100 },
    { min := 47150, max := some 100525, rate := 22/100 },
    { min := 100525, max := some 191950, rate := 24/100 },
    { min := 191950, max := some 243725, rate := 32/100 },
    { min := 243725, max := some 609350, rate := 35/100 },
    { min := 609350, max := none, rate := 37/100 } ]

/-- `TAX_BRACKETS_2024.married` from the frontend tax-calculator. -/
def marriedBrackets : List Bracket :=
  [ { min := 0, max := some 23200, rate := 1/10 },
    { min := 23200, max := some 94300, rate := 12/100 },
    { min := 94300, max := some 201050, rate := 22/100 },
    { min := 201050, max := some 383900, rate := 24/100 },
    { min := 383900, max := some 487450, rate := 32/100 },
    { min := 487450, max := some 731200, rate := 35/100 },
    { min := 731200, max := none, rate := 37/100 } ]

/-- `TAX_BRACKETS_2024.head` from the frontend tax-calculator. -/
def headBrackets : List Bracket :=
  [ { min := 0, max := some 16550, rate := 1/10 },
    { min := 16550, max := some 63100, rate := 12/100 },
    { min := 63100, max := some 100500, rate := 22/100 },
    { min := 100500, max := some 191950, rate := 24/100 },
    { min := 191950, max := some 243700, rate := 32/100 },
    { min := 243700, max := some 609350, rate := 35/100 },
    { min := 609350, max := none, rate := 37/100 } ]

/-- `TAX_BRACKETS_2024[filingStatus] || TAX_BRACKETS_2024.single`. -/
def bracketsFor (filingStatus : String) : List Bracket :=
  if filingStatus = "single" then singleBrackets
  else if filingStatus = "married" then marriedBrackets
  else if filingStatus = "head" then headBrackets
  else singleBrackets

/-- `STATE_TAX_RATES` from the frontend tax-calculator. -/
def STATE_TAX_RATES : List (String × ℚ) :=
  [ ("AL", 5/100), ("CA", 133/1000), ("CO", 44/1000), ("CT", 69/1000),
    ("FL", 0/10), ("GA", 58/1000), ("IL", 49/1000), ("MA", 5/100),
    ("MO", 47/1000), ("NY", 109/1000), ("NC", 45/1000), ("OH", 39/1000),
    ("PA", 31/1000), ("TX", 0/10), ("VA", 58/1000), ("WA", 0/10) ]

/-- `TAX_TREATMENT` from the frontend tax-calculator (six categories). -/
def TAX_TREATMENT : List (String × FTreatment) :=
  [ ("taxable",
     { federalTaxable := true, stateTaxable := true,
       description := "Fully taxable at both federal and state levels" }),
    ("treasury",
     { federalTaxable := true, stateTaxable := false,
       description := "Federal taxable, but state tax-free" }),
    ("municipal",
     { federalTaxable := false, stateTaxable := true,
       description := "Federal tax-free, may be state taxable" }),
    ("state-municipal",
     { federalTaxable := false, stateTaxable := false,
       description := "Tax-free at both levels (for residents only)" }),
    ("sweep",
     { federalTaxable := true, stateTaxable := true,
       description := "Fully taxable sweep fund for automatic cash management" }),
    ("etf",
     { federalTaxable := true, stateTaxable := true,
       description := "Fully taxable ETF with exchange-traded flexibility" }) ]

/-- `TAX_TREATMENT[category] || TAX_TREATMENT.taxable`. -/
def treatmentFor (category : String) : FTreatment :=
  match TAX_TREATMENT.find? (fun p => decide (p.1 = category)) with
  | some p => p.2
  | none =>
    { federalTaxable := true, stateTaxable := true,
      description := "Fully taxable at both federal and state levels" }

/-- `calculateFederalMarginalRate(income, filingStatus)` (frontend). -/
def calculateFederalMarginalRate (income : ℚ) (filingStatus : String) : ℚ :=
  bracketScanGT (bracketsFor filingStatus) income

/-- `calculateStateMarginalRate(state)` (frontend). -/
def calculateStateMarginalRate (state : String) : ℚ :=
  match STATE_TAX_RATES.find? (fun p => decide (p.1 = state)) with
  | some p => p.2
  | none => 0

/-- `getEffectiveTaxRate(category, federalRate, stateRate)` (frontend). -/
def getEffectiveTaxRate (category : String) (federalRate stateRate : ℚ) : ℚ :=
  let treatment := treatmentFor category
  let federalPortion : ℚ := if treatment.federalTaxable then federalRate else 0
  let statePortion : ℚ :=
    if treatment.stateTaxable then
      if treatment.federalTaxable then stateRate * (1 - federalRate) else stateRate
    else 0
  federalPortion + statePortion

/-- `const taxableCategories = ["taxable", "sweep", "etf"];` -/
def taxableCategories : List String := ["taxable", "sweep", "etf"]

/-- `calculateTaxEquivalentYield(fund, userProfile)` (frontend): the
taxable identity applies to all of `taxableCategories`. -/
def calculateTaxEquivalentYield (fund : Fund) (userProfile : UserProfile) : CalcResult :=
  let federalRate := calculateFederalMarginalRate userProfile.income userProfile.filingStatus
  let stateRate := calculateStateMarginalRate userProfile.state
  let netYield := fund.grossYield - Fund.expenseRatio fund
  let effectiveTaxRate := getEffectiveTaxRate fund.category federalRate stateRate
  let taxEquivalentYield :=
    if taxableCategories.contains fund.category then netYield
    else if effectiveTaxRate < 1 then netYield / (1 - effectiveTaxRate) else netYield
  let annualReturn := 10000 * (taxEquivalentYield / 100)
  { fundName := fund.fundName, symbol := fund.symbol, category := fund.category,
    grossYield := fund.grossYield, expenseRatio := Fund.expenseRatio fund,
    netYield := netYield, effectiveTaxRate := effectiveTaxRate,
    taxEquivalentYield := taxEquivalentYield, annualReturn := annualReturn,
    federalRate := federalRate, stateRate := stateRate }

/-- `calculateAllFunds(funds, userProfile)` (frontend). -/
def calculateAllFunds (funds : List Fund) (userProfile : UserProfile) : List CalcResult :=
  sortResults (funds.map (fun fund => calculateTaxEquivalentYield fund userProfile))

end Frontend

namespace DocsCalc

/-- Result object of the docs-site calculator: the fund's own fields
spread into `{ netYield, taxEquivalentYield, annualReturn }`. -/
structure DResult where
  fundName : String
  symbol : String
  category : String
  grossYield : ℚ
  expenseRatio : ℚ
  netYield : ℚ
  taxEquivalentYield : ℚ
  annualReturn : ℚ
deriving DecidableEq

/-- `TAX_BRACKETS_2024.single` from src/docs/js/tax-calculator.js. -/
def singleBrackets : List Bracket :=
  [ { min := 0, max := some 11600, rate := 10/100 },
    { min := 11600, max := some 47150, rate := 12/100 },
    { min := 47150, max := some 100525, rate := 22/100 },
    { min := 100525, max := some 191950, rate := 24/100 },
    { min := 191950, max := some 243725, rate := 32/100 },
    { min := 243725, max := some 609350, rate := 35/100 },
    { min := 609350, max := none, rate := 37/100 } ]

/-- `TAX_BRACKETS_2024.married` from src/docs/js/tax-calculator.js. -/
def marriedBrackets : List Bracket :=
  [ { min := 0, max := some 23200, rate := 10/100 },
    { min := 23200, max := some 94300, rate := 12/100 },
    { min := 94300, max := some 201050, rate := 22/100 },
    { min := 201050, max := some 383900, rate := 24/100 },
    { min := 383900, max := some 487450, rate := 32/100 },
    { min := 487450, max := some 731200, rate := 35/100 },
    { min := 731200, max := none, rate := 37/100 } ]

/-- The docs table has only `single` and `married`. -/
def bracketsFor (filingStatus : String) : List Bracket :=
  if filingStatus = "single" then singleBrackets
  else if filingStatus = "married" then marriedBrackets
  else singleBrackets

/-- `STATE_TAX_RATES` from src/docs/js/tax-calculator.js. -/
def STATE_TAX_RATES : List (String × ℚ) :=
  [ ("MO", 48/1000), ("CA", 133/1000), ("NY", 88/1000),
    ("FL", 0/1000), ("TX", 0/1000), ("WA", 0/1000) ]

/-- `TAX_TREATMENT` from src/docs/js/tax-calculator.js (display-name keys). -/
def TAX_TREATMENT : List (String × Treatment) :=
  [ ("Taxable Money Funds", { federalTaxable := true, stateTaxable := true }),
    ("Treasury Money Funds", { federalTaxable := true, stateTaxable := false }),
    ("Tax-Exempt Money Funds", { federalTaxable := false, stateTaxable := true }),
    ("State-Specific", { federalTaxable := false, stateTaxable := false }) ]

/-- `calculateFederalMarginalRate` (docs variant): the scan condition is
`income >= brackets[i].min`, not the strict `>` of the other two files. -/
def calculateFederalMarginalRate (income : ℚ) (filingStatus : String) : ℚ :=
  let brackets := bracketsFor filingStatus
  match brackets.reverse.find? (fun b => decide (b.min ≤ income)) with
  | some b => b.rate
  | none =>
    match brackets with
    | [] => 0
    | b :: _ => b.rate

/-- `calculateStateMarginalRate(state)` (docs variant). -/
def calculateStateMarginalRate (state : String) : ℚ :=
  match STATE_TAX_RATES.find? (fun p => decide (p.1 = state)) with
  | some p => p.2
  | none => 0

/-- `calculateTaxEquivalentYield(fund, profile)` (docs variant):
`netYield = fund.grossYield` ("Simplified for calculation" — the expense
ratio is ignored), the state portion always deducts the federal rate, and
the division `netYield / (1 - effectiveTaxRate)` is unguarded. -/
def calculateTaxEquivalentYield (fund : Fund) (profile : UserProfile) : DResult :=
  let federalRate := calculateFederalMarginalRate profile.income profile.filingStatus
  let stateRate := calculateStateMarginalRate profile.state
  let treatment :=
    match TAX_TREATMENT.find? (fun p => decide (p.1 = fund.category)) with
    | some p => p.2
    | none => { federalTaxable := true, stateTaxable := true }
  let effectiveTaxRate : ℚ :=
    (if treatment.federalTaxable then federalRate else 0) +
      (if treatment.stateTaxable then stateRate * (1 - federalRate) else 0)
  let netYield := fund.grossYield
  let tey := netYield / (1 - effectiveTaxRate)
  { fundName := fund.fundName, symbol := fund.symbol, category := fund.category,
    grossYield := fund.grossYield, expenseRatio := Fund.expenseRatio fund,
    netYield := netYield, taxEquivalentYield := tey,
    annualReturn := 10000 * (tey / 100) }

end DocsCalc

namespace DataUtils

/-- The double-quote character, as scanned for by `parseCSVLine`. -/
def dquote : Char := Char.ofNat 34

/-- JS `String.prototype.trim` on a character list (whitespace on both
ends; the CSV values in play are ASCII). -/
def trimChars (l : List Char) : List Char :=
  ((l.dropWhile Char.isWhitespace).reverse.dropWhile Char.isWhitespace).reverse

/-- `cleanValue(val)` on a character list: trim, then strip one layer of
surrounding double quotes when the value both starts and ends with one. -/
def cleanValueChars (val : List Char) : List Char :=
  let value := trimChars val
  if value.head? = some dquote ∧ value.getLast? = some dquote then
    (value.drop 1).dropLast
  else value

/-- `cleanValue(val)` from src/public/js/data-utils.js. -/
def cleanValue (val : String) : String :=
  String.mk (cleanValueChars val.toList)

/-- The character-by-character loop of `parseCSVLine`: `inQuotes` toggles
on an unescaped quote, a doubled quote inside quotes emits one literal
quote and skips a character (`i++`), an unquoted comma pushes the cleaned
current field, anything else accumulates.  The trailing
`result.push(cleanValue(current))` is the `[]` case. -/
def parseCSVLineAux : List Char → Bool → List Char → List (List Char)
  | [], _, current => [cleanValueChars current]
  | [c], inQuotes, current =>
    if c = dquote then parseCSVLineAux [] (!inQuotes) current
    else if c = ',' ∧ inQuotes = false then
      cleanValueChars current :: parseCSVLineAux [] inQuotes []
    else parseCSVLineAux [] inQuotes (current ++ [c])
  | c :: c2 :: rest2, inQuotes, current =>
    if c = dquote then
      if inQuotes ∧ c2 = dquote then
        parseCSVLineAux rest2 inQuotes (current ++ [dquote])
      else parseCSVLineAux (c2 :: rest2) (!inQuotes) current
    else if c = ',' ∧ inQuotes = false then
      cleanValueChars current :: parseCSVLineAux (c2 :: rest2) inQuotes []
    else parseCSVLineAux (c2 :: rest2) inQuotes (current ++ [c])

/-- `parseCSVLine(line)` from src/public/js/data-utils.js. -/
def parseCSVLine (line : String) : List String :=
  (parseCSVLineAux line.toList false []).map (fun cs => String.mk cs)

/-- A raw CSV row as `categorizeFund` reads it: the `Category`,
`Fund Name` and `FundName` columns, with a missing column modeled as `""`
(`undefined` and `""` are both falsy under the `||` defaults the code
applies before use). -/
structure RawRow where
  categoryCol : String
  fundNameCol : String
  fundNameAlt : String
deriving DecidableEq

/-- JS `a || b` on strings: the empty string is the only falsy string. -/
def jsOr (a b : String) : String :=
  if a = "" then b else a

/-- JS `s.toLowerCase()`; the substrings the categorizer probes for are
ASCII, for which per-character lowering is exact. -/
def jsToLower (s : String) : String :=
  String.mk (s.toList.map Char.toLower)

/-- JS `s.includes(sub)` (substring containment). -/
def jsIncludes (s sub : String) : Bool :=
  decide (sub.toList <:+: s.toList)

/-- `categorizeFund(row)` from src/public/js/data-utils.js. -/
def categorizeFund (row : RawRow) : String :=
  let csvCategory := jsToLower (jsOr row.categoryCol "")
  if jsIncludes csvCategory "sweep" then "sweep"
  else if jsIncludes csvCategory "etf" || jsIncludes csvCategory "money market etf" then "etf"
  else if jsIncludes csvCategory "treasury" then "treasury"
  else if jsIncludes csvCategory "tax-exempt" then "municipal"
  else if jsIncludes csvCategory "state-specific" || jsIncludes csvCategory "state municipal" then
    "state-municipal"
  else if jsIncludes csvCategory "taxable" then "taxable"
  else
    let name := jsToLower (jsOr (jsOr row.fundNameCol row.fundNameAlt) "")
    if jsIncludes name "etf" then "etf"
    else if jsIncludes name "sweep" then "sweep"
    else if jsIncludes name "treasury" then "treasury"
    else if jsIncludes name "tax-exempt" || jsIncludes name "municipal" then
      if jsIncludes name "california" || jsIncludes name "new york" then "state-municipal"
      else "municipal"
    else "taxable"

/-- The categorization cascade exactly as the claim states it: declared
category checked for sweep, etf, treasury, tax-exempt, state-specific or
state municipal, taxable, in that order; then fund-name fallback etf,
sweep, treasury, tax-exempt/municipal (state-municipal when the name also
names california or new york); default taxable.  Stated from the claim's
words for comparison with `categorizeFund`. -/
def categorizeFundSpec (row : RawRow) : String :=
  let csvCategory := jsToLower (jsOr row.categoryCol "")
  if jsIncludes csvCategory "sweep" then "sweep"
  else if jsIncludes csvCategory "etf" then "etf"
  else if jsIncludes csvCategory "treasury" then "treasury"
  else if jsIncludes csvCategory "tax-exempt" then "municipal"
  else if jsIncludes csvCategory "state-specific" || jsIncludes csvCategory "state municipal" then
    "state-municipal"
  else if jsIncludes csvCategory "taxable" then "taxable"
  else
    let name := jsToLower (jsOr (jsOr row.fundNameCol row.fundNameAlt) "")
    if jsIncludes name "etf" then "etf"
    else if jsIncludes name "sweep" then "sweep"
    else if jsIncludes name "treasury" then "treasury"
    else if jsIncludes name "tax-exempt" || jsIncludes name "municipal" then
      if jsIncludes name "california" || jsIncludes name "new york" then "state-municipal"
      else "municipal"
    else "taxable"

/-- A chart data point `{ category, fundName, date, netYield }`. -/
structure ChartPoint where
  category : String
  fundName : String
  date : String
  netYield : ℚ
deriving DecidableEq

/-- The `{ dates, categoryAverages }` object returned by
`aggregateChartData`; the JS object's string-keyed map is an ordered
association list (insertion order). -/
structure AggregatedChart where
  dates : List String
  categoryAverages : List (String × List (Option ℚ))
deriving DecidableEq

/-- Day count of the civil date `(y, m, d)` with `m ∈ 1..12` relative to
the Unix epoch; `d` outside the month's length spills over linearly,
exactly as `new Date(y, m - 1, d)` normalizes it. -/
def daysFromCivil (y m d : Int) : Int :=
  let yShift := if m ≤ 2 then y - 1 else y
  let era := Int.fdiv yShift 400
  let yoe := yShift - era * 400
  let mp := if m ≤ 2 then m + 9 else m - 3
  let doy := (153 * mp + 2) / 5 + d - 1
  let doe := yoe * 365 + yoe / 4 - yoe / 100 + doy
  era * 146097 + doe - 719468

/-- `dateStr.split("-")` on a character list, accumulating the current
field in reverse. -/
def splitOnDash : List Char → List Char → List (List Char)
  | [], acc => [acc]
  | c :: rest, acc =>
    if c = '-' then acc :: splitOnDash rest []
    else splitOnDash rest (acc ++ [c])

/-- `parseInt` on one split field: the value of the leading digit run,
`none` (JS `NaN`) when there is none. -/
def parseIntField (field : List Char) : Option Nat :=
  let digits := field.takeWhile Char.isDigit
  if digits = [] then none
  else some (digits.foldl (fun acc c => acc * 10 + (c.toNat - 48)) 0)

/-- `parseDateMMDDYYYY(dateStr)` reduced to a sort key: the code builds
`new Date(parseInt(y), parseInt(m) - 1, parseInt(day))` and compares dates
by subtraction, so only the timeline position matters; it is modeled as
days since the epoch (the constructor's month/day normalization included,
local time taken as UTC).  A field that fails to parse is taken as 0. -/
def dateKey (dateStr : String) : Int :=
  let parts := splitOnDash dateStr.toList []
  let m : Int := ((parseIntField (parts.getD 0 [])).getD 0 : Nat)
  let d : Int := ((parseIntField (parts.getD 1 [])).getD 0 : Nat)
  let y : Int := ((parseIntField (parts.getD 2 [])).getD 0 : Nat)
  let yAdj := y + Int.fdiv (m - 1) 12
  let mAdj := Int.emod (m - 1) 12 + 1
  daysFromCivil yAdj mAdj d

/-- Chronological order on date strings, as induced by the comparator
`(a, b) => parseDateMMDDYYYY(a) - parseDateMMDDYYYY(b)`. -/
def dateLe (a b : String) : Prop :=
  dateKey a ≤ dateKey b

instance (a b : String) : Decidable (dateLe a b) :=
  inferInstanceAs (Decidable (_ ≤ _))

instance : IsTotal String dateLe :=
  ⟨fun a b => le_total (dateKey a) (dateKey b)⟩

instance : IsTrans String dateLe :=
  ⟨fun _ _ _ h1 h2 => le_trans h1 h2⟩

/-- Helper for `dedupFirst`: keep the elements not yet seen, first
occurrences in encounter order. -/
def dedupFirstAux {α : Type} [DecidableEq α] : List α → List α → List α
  | [], _ => []
  | a :: l, seen =>
    if a ∈ seen then dedupFirstAux l seen
    else a :: dedupFirstAux l (a :: seen)

/-- `[...new Set(xs)]`: deduplication keeping first occurrences in
encounter order. -/
def dedupFirst {α : Type} [DecidableEq α] (l : List α) : List α :=
  dedupFirstAux l []

/-- `dates.sort((a, b) => parseDateMMDDYYYY(a) - parseDateMMDDYYYY(b))`
(stable, modeled by insertion sort as for `sortResults`). -/
def sortDates (dates : List String) : List String :=
  List.insertionSort dateLe dates

/-- `aggregateChartData(dataPoints)` from src/public/js/data-utils.js. -/
def aggregateChartData (dataPoints : List ChartPoint) : AggregatedChart :=
  if dataPoints = [] then { dates := [], categoryAverages := [] }
  else
    let dates := sortDates (dedupFirst (dataPoints.map (fun d => d.date)))
    let categories := dedupFirst (dataPoints.map (fun d => d.category))
    let categoryAverages := categories.map (fun category =>
      (category, dates.map (fun date =>
        let entries := dataPoints.filter
          (fun d => decide (d.category = category) && decide (d.date = date))
        if entries = [] then none
        else some ((entries.map (fun d => d.netYield)).sum / (entries.length : ℚ)))))
    { dates := dates, categoryAverages := categoryAverages }

end DataUtils

/-- The three filing-status keys present in the bracket tables. -/
def statusNames : List String := ["single", "married", "head"]

/-- Placeholder result record, used only as the out-of-range default of
indexed access in theorem statements. -/
def defaultResult : CalcResult :=
  { fundName := "", symbol := "", category := "", grossYield := 0,
    expenseRatio := 0, netYield := 0, effectiveTaxRate := 0,
    taxEquivalentYield := 0, annualReturn := 0, federalRate := 0, stateRate := 0 }

/-! ## Verification of the specified properties -/

/-- C8: `parseCSVLine` handles quoted fields and doubled-quote escapes:
`'a,"b,c",d'` parses to `["a", "b,c", "d"]` (a comma inside quotes does
not split), `'a,"He said ""hello""",c'` parses with the doubled quotes
collapsed to one literal quote each, and `cleanValue` strips one layer of
surrounding quotes from a value. -/
theorem parseCSVLine_quoted_fields :
    DataUtils.parseCSVLine "a,\"b,c\",d" = ["a", "b,c", "d"]
    ∧ DataUtils.parseCSVLine "a,\"He said \"\"hello\"\"\",c"
        = ["a", "He said \"hello\"", "c"]
    ∧ DataUtils.cleanValue "\"b,c\"" = "b,c" := by
  refine ⟨by decide, by decide, by decide⟩

/-- C1: for every category and resolved rates, `getEffectiveTaxRate` (in
both the frontend and the backend engine) returns
`federalRate + stateRate * (1 - federalRate)` when the category's
treatment is federal- and state-taxable, `federalRate` alone when only
federal-taxable, the full `stateRate` when only state-taxable, and `0`
when neither; for a Taxable fund with rates 0.24 and 0.047 it returns
exactly 0.27572, hence well within 1e-9 of it. -/
theorem getEffectiveTaxRate_cases :
    ∀ (category : String) (federalRate stateRate : ℚ),
      (Frontend.getEffectiveTaxRate category federalRate stateRate =
        (if (Frontend.treatmentFor category).federalTaxable then
          if (Frontend.treatmentFor category).stateTaxable then
            federalRate + stateRate * (1 - federalRate)
          else federalRate
        else
          if (Frontend.treatmentFor category).stateTaxable then stateRate else 0))
      ∧ (TaxEngine.getEffectiveTaxRate category federalRate stateRate =
        (if (TaxEngine.treatmentFor category).federalTaxable then
          if (TaxEngine.treatmentFor category).stateTaxable then
            federalRate + stateRate * (1 - federalRate)
          else federalRate
        else
          if (TaxEngine.treatmentFor category).stateTaxable then stateRate else 0))
      ∧ Frontend.getEffectiveTaxRate "taxable" (24/100) (47/1000) = 27572/100000
      ∧ |Frontend.getEffectiveTaxRate "taxable" (24/100) (47/1000) - 27572/100000|
          ≤ 1/1000000000 := by
  intro category federalRate stateRate
  refine ⟨?_, ?_, by decide, ?_⟩
  · simp only [Frontend.getEffectiveTaxRate]
    cases h1 : (Frontend.treatmentFor category).federalTaxable <;>
      cases h2 : (Frontend.treatmentFor category).stateTaxable <;>
        simp [h1, h2]
  · simp only [TaxEngine.getEffectiveTaxRate]
    cases h1 : (TaxEngine.treatmentFor category).federalTaxable <;>
      cases h2 : (TaxEngine.treatmentFor category).stateTaxable <;>
        simp [h1, h2]
  · have h : Frontend.getEffectiveTaxRate "taxable" (24/100) (47/1000)
        = 27572/100000 := by decide
    rw [h]
    norm_num

/-- C2: the backend engine does not apply the taxable identity to a
`sweep` fund.  Its treatment table has no `sweep` entry (so the fund is
treated as fully taxable) and its identity test is
`fund.category === 'taxable'` alone, so the backend divides the sweep
fund's net yield by `1 - effectiveTaxRate` while the frontend — whose
logic it is documented to mirror — returns the net yield unchanged. -/
theorem backend_sweep_identity_violation :
    let fund : Fund :=
      { fundName := "Schwab Government Money Fund - Sweep Shares", symbol := "SWGXX",
        category := "sweep", grossYield := 45/10, expenseRatio := 1/10 }
    let profile : UserProfile :=
      { income := 150000, filingStatus := "single", state := "MO" }
    (TaxEngine.calculateTaxEquivalentYield fund profile).netYield = 44/10
    ∧ (TaxEngine.calculateTaxEquivalentYield fund profile).taxEquivalentYield
        = (44/10) / (1 - 27572/100000)
    ∧ (TaxEngine.calculateTaxEquivalentYield fund profile).taxEquivalentYield ≠ 44/10
    ∧ (Frontend.calculateTaxEquivalentYield fund profile).taxEquivalentYield = 44/10 := by
  refine ⟨by decide, by decide, by decide, by decide⟩

/-- C3, counterexample: the docs-site resolver compares with `>=`, so an
income exactly at the 47150 single-filer boundary resolves to the rate of
the bracket above (0.22), not the bracket below (0.12) that the claimed
strict-greater-than scan would produce. -/
theorem docs_boundary_rate_counterexample :
    DocsCalc.calculateFederalMarginalRate 47150 "single" = 22/100
    ∧ DocsCalc.calculateFederalMarginalRate 47150 "single" ≠ 12/100 := by
  refine ⟨by decide, by decide⟩

/-- C3, amended: the backend and frontend resolvers scan with strict `>`:
for every filing status and every interior bracket, an income exactly
equal to that bracket's lower bound resolves to the rate of the bracket
below it, and an income at or below 0 falls back to the lowest bracket's
rate. -/
theorem federal_boundary_policy :
    (∀ s : Fin 3, ∀ i : Fin 6,
      TaxEngine.calculateFederalMarginalRate
          ((TaxEngine.bracketsFor (statusNames.get ⟨s.val, s.isLt⟩)).getD (i.val + 1)
            { min := 0, max := none, rate := 0 }).min
          (statusNames.get ⟨s.val, s.isLt⟩)
        = ((TaxEngine.bracketsFor (statusNames.get ⟨s.val, s.isLt⟩)).getD i.val
            { min := 0, max := none, rate := 0 }).rate)
    ∧ (∀ s : Fin 3, ∀ i : Fin 6,
      Frontend.calculateFederalMarginalRate
          ((Frontend.bracketsFor (statusNames.get ⟨s.val, s.isLt⟩)).getD (i.val + 1)
            { min := 0, max := none, rate := 0 }).min
          (statusNames.get ⟨s.val, s.isLt⟩)
        = ((Frontend.bracketsFor (statusNames.get ⟨s.val, s.isLt⟩)).getD i.val
            { min := 0, max := none, rate := 0 }).rate)
    ∧ (∀ s : Fin 3,
      TaxEngine.calculateFederalMarginalRate 0 (statusNames.get ⟨s.val, s.isLt⟩)
        = ((TaxEngine.bracketsFor (statusNames.get ⟨s.val, s.isLt⟩)).getD 0
            { min := 0, max := none, rate := 0 }).rate)
    ∧ (∀ s : Fin 3,
      Frontend.calculateFederalMarginalRate 0 (statusNames.get ⟨s.val, s.isLt⟩)
        = ((Frontend.bracketsFor (statusNames.get ⟨s.val, s.isLt⟩)).getD 0
            { min := 0, max := none, rate := 0 }).rate) := by
  refine ⟨by decide, by decide, by decide, by decide⟩

/-- C4, counterexample: the docs-site calculator sets
`netYield = fund.grossYield` ("Simplified for calculation"), so with a
gross yield of 2 and an expense ratio of 5 its result's net yield is 2,
not the claimed `grossYield - expenseRatio = -3`. -/
theorem docs_netYield_counterexample :
    (DocsCalc.calculateTaxEquivalentYield
        { fundName := "f", symbol := "s", category := "Taxable Money Funds",
          grossYield := 2, expenseRatio := 5 }
        { income := 150000, filingStatus := "single", state := "MO" }).netYield = 2
    ∧ (DocsCalc.calculateTaxEquivalentYield
        { fundName := "f", symbol := "s", category := "Taxable Money Funds",
          grossYield := 2, expenseRatio := 5 }
        { income := 150000, filingStatus := "single", state := "MO" }).netYield
      ≠ 2 - 5 := by
  refine ⟨by decide, by decide⟩

/-- C4, amended: the frontend and backend calculators compute
`netYield = grossYield - expenseRatio` with no floor at zero, and that
unclamped value is the one the derived tax-equivalent yield is built
from; the docs-site variant instead ignores the expense ratio. -/
theorem netYield_unclamped :
    ∀ (fund : Fund) (userProfile : UserProfile),
      (Frontend.calculateTaxEquivalentYield fund userProfile).netYield
          = fund.grossYield - Fund.expenseRatio fund
      ∧ (TaxEngine.calculateTaxEquivalentYield fund userProfile).netYield
          = fund.grossYield - Fund.expenseRatio fund
      ∧ (Frontend.taxableCategories.contains fund.category = true →
          (Frontend.calculateTaxEquivalentYield fund userProfile).taxEquivalentYield
            = fund.grossYield - Fund.expenseRatio fund)
      ∧ (Frontend.taxableCategories.contains fund.category = false →
          (Frontend.calculateTaxEquivalentYield fund userProfile).taxEquivalentYield
            = (if (Frontend.calculateTaxEquivalentYield fund userProfile).effectiveTaxRate < 1 then
                (fund.grossYield - Fund.expenseRatio fund)
                  / (1 - (Frontend.calculateTaxEquivalentYield fund userProfile).effectiveTaxRate)
              else fund.grossYield - Fund.expenseRatio fund)) := by
  intro fund userProfile
  refine ⟨rfl, rfl, ?_, ?_⟩
  · intro h
    simp only [Frontend.calculateTaxEquivalentYield, h, if_true]
  · intro h
    simp only [Frontend.calculateTaxEquivalentYield, h]
    simp

/-- Witness for C4 at a fund whose expense ratio exceeds its gross yield:
the net yield is the negative `2 - 5` and is passed through unclamped to
the tax-equivalent yield. -/
theorem netYield_unclamped_witness :
    (Frontend.calculateTaxEquivalentYield
        { fundName := "f", symbol := "s", category := "taxable",
          grossYield := 2, expenseRatio := 5 }
        { income := 150000, filingStatus := "single", state := "MO" }).netYield = 2 - 5
    ∧ (Frontend.calculateTaxEquivalentYield
        { fundName := "f", symbol := "s", category := "taxable",
          grossYield := 2, expenseRatio := 5 }
        { income := 150000, filingStatus := "single", state := "MO" }).taxEquivalentYield
      = 2 - 5 := by
  refine ⟨(netYield_unclamped _ _).1, (netYield_unclamped _ _).2.2.1 (by decide)⟩

/-- The bracket scan always returns the rate of some bracket of a
nonempty table. -/
theorem bracketScanGT_mem (bs : List Bracket) (income : ℚ) (h : bs ≠ []) :
    ∃ b ∈ bs, bracketScanGT bs income = b.rate := by
  unfold bracketScanGT
  cases hf : bs.reverse.find? (fun b => decide (b.min < income)) with
  | some b =>
    exact ⟨b, List.mem_reverse.mp (List.mem_of_find?_eq_some hf), rfl⟩
  | none =>
    cases bs with
    | nil => exact absurd rfl h
    | cons b t => exact ⟨b, List.mem_cons_self b t, rfl⟩

/-- Every federal rate the frontend resolver can return is at most the
top bracket's 37%. -/
theorem frontend_fed_le (income : ℚ) (filingStatus : String) :
    Frontend.calculateFederalMarginalRate income filingStatus ≤ 37/100 := by
  have hne : Frontend.bracketsFor filingStatus ≠ [] := by
    unfold Frontend.bracketsFor
    split_ifs <;> decide
  obtain ⟨b, hb, heq⟩ := bracketScanGT_mem (Frontend.bracketsFor filingStatus) income hne
  have hall : ∀ b ∈ Frontend.bracketsFor filingStatus, b.rate ≤ 37/100 := by
    unfold Frontend.bracketsFor
    split_ifs <;> decide
  unfold Frontend.calculateFederalMarginalRate
  rw [heq]
  exact hall b hb

/-- Every state rate the frontend resolver can return is below 1 (the
largest table entry is California's 13.3%, and an unknown code gives 0). -/
theorem frontend_state_lt_one (state : String) :
    Frontend.calculateStateMarginalRate state < 1 := by
  unfold Frontend.calculateStateMarginalRate
  cases hf : Frontend.STATE_TAX_RATES.find? (fun p => decide (p.1 = state)) with
  | some p =>
    have hall : ∀ q ∈ Frontend.STATE_TAX_RATES, q.2 < 1 := by decide
    exact hall p (List.mem_of_find?_eq_some hf)
  | none => norm_num

/-- With both component rates below 1, the combined effective rate stays
below 1 in each of the four treatment cases. -/
theorem frontend_eff_lt_one (category : String) (federalRate stateRate : ℚ)
    (hf : federalRate < 1) (hs : stateRate < 1) :
    Frontend.getEffectiveTaxRate category federalRate stateRate < 1 := by
  simp only [Frontend.getEffectiveTaxRate]
  cases h1 : (Frontend.treatmentFor category).federalTaxable <;>
    cases h2 : (Frontend.treatmentFor category).stateTaxable <;>
      simp [h1, h2] <;>
        nlinarith [mul_pos (sub_pos.mpr hf) (sub_pos.mpr hs)]

/-- The docs-site resolver's federal rate always lies between 0 and the
top bracket's 37%. -/
theorem docs_fed_bounds (income : ℚ) (filingStatus : String) :
    0 ≤ DocsCalc.calculateFederalMarginalRate income filingStatus
    ∧ DocsCalc.calculateFederalMarginalRate income filingStatus ≤ 37/100 := by
  simp only [DocsCalc.calculateFederalMarginalRate]
  cases hf : (DocsCalc.bracketsFor filingStatus).reverse.find?
      (fun b => decide (b.min ≤ income)) with
  | some b =>
    have hall : ∀ b ∈ DocsCalc.bracketsFor filingStatus, 0 ≤ b.rate ∧ b.rate ≤ 37/100 := by
      unfold DocsCalc.bracketsFor
      split_ifs <;> decide
    exact hall b (List.mem_reverse.mp (List.mem_of_find?_eq_some hf))
  | none =>
    unfold DocsCalc.bracketsFor
    split_ifs <;> decide

/-- The docs-site resolver's state rate always lies between 0 and
California's 13.3%. -/
theorem docs_state_bounds (state : String) :
    0 ≤ DocsCalc.calculateStateMarginalRate state
    ∧ DocsCalc.calculateStateMarginalRate state ≤ 133/1000 := by
  unfold DocsCalc.calculateStateMarginalRate
  cases hf : DocsCalc.STATE_TAX_RATES.find? (fun p => decide (p.1 = state)) with
  | some p =>
    have hall : ∀ q ∈ DocsCalc.STATE_TAX_RATES, 0 ≤ q.2 ∧ q.2 ≤ 133/1000 := by decide
    exact hall p (List.mem_of_find?_eq_some hf)
  | none => norm_num

/-- C5: both cited calculators divide safely.  The frontend, for every
fund outside the fully-taxable set, returns
`netYield / (1 - effectiveTaxRate)` under its `effectiveTaxRate < 1`
guard, and that rate is below 1 for every profile, so the denominator is
nonzero (the `≥ 1` fallback branch is unreachable from the rate tables).
The docs-site calculator divides without a guard, but the effective rate
it computes — written out below exactly as its code computes it — is
also below 1 for every fund and profile, so its unguarded division is by
a nonzero denominator as well and an input with `effectiveTaxRate ≥ 1`
does not exist.  No NaN or Infinity can arise in exact rational
arithmetic with nonzero denominators. -/
theorem tey_division_guard :
    (∀ (fund : Fund) (userProfile : UserProfile),
      Frontend.taxableCategories.contains fund.category = false →
        (Frontend.calculateTaxEquivalentYield fund userProfile).effectiveTaxRate < 1
        ∧ 1 - (Frontend.calculateTaxEquivalentYield fund userProfile).effectiveTaxRate ≠ 0
        ∧ (Frontend.calculateTaxEquivalentYield fund userProfile).taxEquivalentYield
            = (Frontend.calculateTaxEquivalentYield fund userProfile).netYield
              / (1 - (Frontend.calculateTaxEquivalentYield fund userProfile).effectiveTaxRate))
    ∧ ∀ (fund : Fund) (profile : UserProfile),
        ((if ((match DocsCalc.TAX_TREATMENT.find? (fun p => decide (p.1 = fund.category)) with
          | some p => p.2
          | none => { federalTaxable := true, stateTaxable := true }) : Treatment).federalTaxable then
          DocsCalc.calculateFederalMarginalRate profile.income profile.filingStatus
        else 0) +
        (if ((match DocsCalc.TAX_TREATMENT.find? (fun p => decide (p.1 = fund.category)) with
          | some p => p.2
          | none => { federalTaxable := true, stateTaxable := true }) : Treatment).stateTaxable then
          DocsCalc.calculateStateMarginalRate profile.state
            * (1 - DocsCalc.calculateFederalMarginalRate profile.income profile.filingStatus)
        else 0)) < 1
        ∧ 1 - ((if ((match DocsCalc.TAX_TREATMENT.find? (fun p => decide (p.1 = fund.category)) with
          | some p => p.2
          | none => { federalTaxable := true, stateTaxable := true }) : Treatment).federalTaxable then
          DocsCalc.calculateFederalMarginalRate profile.income profile.filingStatus
        else 0) +
        (if ((match DocsCalc.TAX_TREATMENT.find? (fun p => decide (p.1 = fund.category)) with
          | some p => p.2
          | none => { federalTaxable := true, stateTaxable := true }) : Treatment).stateTaxable then
          DocsCalc.calculateStateMarginalRate profile.state
            * (1 - DocsCalc.calculateFederalMarginalRate profile.income profile.filingStatus)
        else 0)) ≠ 0
        ∧ (DocsCalc.calculateTaxEquivalentYield fund profile).taxEquivalentYield
            = (DocsCalc.calculateTaxEquivalentYield fund profile).netYield
              / (1 - ((if ((match DocsCalc.TAX_TREATMENT.find? (fun p => decide (p.1 = fund.category)) with
          | some p => p.2
          | none => { federalTaxable := true, stateTaxable := true }) : Treatment).federalTaxable then
          DocsCalc.calculateFederalMarginalRate profile.income profile.filingStatus
        else 0) +
        (if ((match DocsCalc.TAX_TREATMENT.find? (fun p => decide (p.1 = fund.category)) with
          | some p => p.2
          | none => { federalTaxable := true, stateTaxable := true }) : Treatment).stateTaxable then
          DocsCalc.calculateStateMarginalRate profile.state
            * (1 - DocsCalc.calculateFederalMarginalRate profile.income profile.filingStatus)
        else 0))) := by
  constructor
  · intro fund userProfile h
    have h1 : Frontend.calculateFederalMarginalRate userProfile.income userProfile.filingStatus < 1 :=
      lt_of_le_of_lt (frontend_fed_le _ _) (by norm_num)
    have h2 := frontend_state_lt_one userProfile.state
    have heffRaw : Frontend.getEffectiveTaxRate fund.category
        (Frontend.calculateFederalMarginalRate userProfile.income userProfile.filingStatus)
        (Frontend.calculateStateMarginalRate userProfile.state) < 1 :=
      frontend_eff_lt_one _ _ _ h1 h2
    have heff : (Frontend.calculateTaxEquivalentYield fund userProfile).effectiveTaxRate < 1 :=
      heffRaw
    refine ⟨heff, sub_ne_zero_of_ne (ne_of_lt heff).symm, ?_⟩
    simp only [Frontend.calculateTaxEquivalentYield, h, Bool.false_eq_true, if_false]
    rw [if_pos heffRaw]
  · intro fund profile
    obtain ⟨hf0, hf1⟩ := docs_fed_bounds profile.income profile.filingStatus
    obtain ⟨hs0, hs1⟩ := docs_state_bounds profile.state
    have hfed1 : DocsCalc.calculateFederalMarginalRate profile.income profile.filingStatus < 1 :=
      lt_of_le_of_lt hf1 (by norm_num)
    have hst1 : DocsCalc.calculateStateMarginalRate profile.state < 1 :=
      lt_of_le_of_lt hs1 (by norm_num)
    have hlt : ((if ((match DocsCalc.TAX_TREATMENT.find? (fun p => decide (p.1 = fund.category)) with
          | some p => p.2
          | none => { federalTaxable := true, stateTaxable := true }) : Treatment).federalTaxable then
          DocsCalc.calculateFederalMarginalRate profile.income profile.filingStatus
        else 0) +
        (if ((match DocsCalc.TAX_TREATMENT.find? (fun p => decide (p.1 = fund.category)) with
          | some p => p.2
          | none => { federalTaxable := true, stateTaxable := true }) : Treatment).stateTaxable then
          DocsCalc.calculateStateMarginalRate profile.state
            * (1 - DocsCalc.calculateFederalMarginalRate profile.income profile.filingStatus)
        else 0)) < 1 := by
      cases h1 : ((match DocsCalc.TAX_TREATMENT.find? (fun p => decide (p.1 = fund.category)) with
          | some p => p.2
          | none => { federalTaxable := true, stateTaxable := true }) : Treatment).federalTaxable <;>
        cases h2 : ((match DocsCalc.TAX_TREATMENT.find? (fun p => decide (p.1 = fund.category)) with
          | some p => p.2
          | none => { federalTaxable := true, stateTaxable := true }) : Treatment).stateTaxable <;>
          simp only [h1, h2, if_true, if_false, Bool.false_eq_true] <;>
            nlinarith [mul_nonneg hs0 hf0,
              mul_pos (sub_pos.mpr hfed1) (sub_pos.mpr hst1)]
    exact ⟨hlt, sub_ne_zero_of_ne (ne_of_lt hlt).symm, rfl⟩

/-- Witness for C5 at the spec's municipal scenario (gross 2.89, expense
0.39, income 200000, single, MO). -/
theorem tey_division_guard_witness :
    Frontend.taxableCategories.contains
        (Fund.category
          { fundName := "Schwab Municipal Money Fund", symbol := "SWTXX",
            category := "municipal", grossYield := 289/100, expenseRatio := 39/100 }) = false
    ∧ ((Frontend.calculateTaxEquivalentYield
          { fundName := "Schwab Municipal Money Fund", symbol := "SWTXX",
            category := "municipal", grossYield := 289/100, expenseRatio := 39/100 }
          { income := 200000, filingStatus := "single", state := "MO" }).effectiveTaxRate < 1
        ∧ 1 - (Frontend.calculateTaxEquivalentYield
          { fundName := "Schwab Municipal Money Fund", symbol := "SWTXX",
            category := "municipal", grossYield := 289/100, expenseRatio := 39/100 }
          { income := 200000, filingStatus := "single", state := "MO" }).effectiveTaxRate ≠ 0
        ∧ (Frontend.calculateTaxEquivalentYield
          { fundName := "Schwab Municipal Money Fund", symbol := "SWTXX",
            category := "municipal", grossYield := 289/100, expenseRatio := 39/100 }
          { income := 200000, filingStatus := "single", state := "MO" }).taxEquivalentYield
            = (Frontend.calculateTaxEquivalentYield
          { fundName := "Schwab Municipal Money Fund", symbol := "SWTXX",
            category := "municipal", grossYield := 289/100, expenseRatio := 39/100 }
          { income := 200000, filingStatus := "single", state := "MO" }).netYield
              / (1 - (Frontend.calculateTaxEquivalentYield
          { fundName := "Schwab Municipal Money Fund", symbol := "SWTXX",
            category := "municipal", grossYield := 289/100, expenseRatio := 39/100 }
          { income := 200000, filingStatus := "single", state := "MO" }).effectiveTaxRate)) := by
  exact ⟨by decide, tey_division_guard.1 _ _ (by decide)⟩

/-- A declared category containing "money market etf" also contains
"etf", so the code's extra disjunct is redundant. -/
theorem jsIncludes_mmEtf (s : String) :
    (DataUtils.jsIncludes s "etf" || DataUtils.jsIncludes s "money market etf")
      = DataUtils.jsIncludes s "etf" := by
  cases h : DataUtils.jsIncludes s "etf" with
  | true => simp
  | false =>
    simp only [Bool.false_or]
    cases h2 : DataUtils.jsIncludes s "money market etf" with
    | false => rfl
    | true =>
      exfalso
      have hmm : ("money market etf".toList <:+: s.toList) := of_decide_eq_true h2
      have hetf : ("etf".toList <:+: "money market etf".toList) := by decide
      have hin : DataUtils.jsIncludes s "etf" = true := decide_eq_true (hetf.trans hmm)
      rw [h] at hin
      exact Bool.false_ne_true hin

/-- Any value of the categorizer's if-cascade shape is one of the six
category keys, whatever its Boolean conditions evaluate to. -/
theorem categoryCascade_mem :
    ∀ b1 b2 b3 b4 b5 b6 b7 b8 b9 b10 b11 : Bool,
      (if b1 = true then "sweep"
       else if b2 = true then "etf"
       else if b3 = true then "treasury"
       else if b4 = true then "municipal"
       else if b5 = true then "state-municipal"
       else if b6 = true then "taxable"
       else if b7 = true then "etf"
       else if b8 = true then "sweep"
       else if b9 = true then "treasury"
       else if b10 = true then
         if b11 = true then "state-municipal" else "municipal"
       else "taxable")
        ∈ ["taxable", "treasury", "municipal", "state-municipal", "sweep", "etf"] := by
  decide

/-- C6: `categorizeFund` evaluates exactly the claim's first-match-wins
cascade (`categorizeFundSpec`, written from the claim's words), and it is
total: every row maps to one of the six category keys, with `taxable` as
the final fallback. -/
theorem categorizeFund_total_and_ordered :
    (∀ row : DataUtils.RawRow,
        DataUtils.categorizeFund row = DataUtils.categorizeFundSpec row)
    ∧ ∀ row : DataUtils.RawRow,
        DataUtils.categorizeFund row
          ∈ ["taxable", "treasury", "municipal", "state-municipal", "sweep", "etf"] := by
  constructor
  · intro row
    simp only [DataUtils.categorizeFund, DataUtils.categorizeFundSpec, jsIncludes_mmEtf]
  · intro row
    simp only [DataUtils.categorizeFund]
    exact categoryCascade_mem _ _ _ _ _ _ _ _ _ _ _

/-- Inserting one result keeps the set of results with any fixed
tax-equivalent yield in order: ties never jump over each other. -/
theorem filter_orderedInsert_teyGE (q : ℚ) (a : CalcResult) (l : List CalcResult) :
    (List.orderedInsert teyGE a l).filter (fun r => decide (r.taxEquivalentYield = q))
      = if a.taxEquivalentYield = q then
          a :: l.filter (fun r => decide (r.taxEquivalentYield = q))
        else l.filter (fun r => decide (r.taxEquivalentYield = q)) := by
  induction l with
  | nil =>
    by_cases hpa : a.taxEquivalentYield = q <;>
      simp [List.orderedInsert, List.filter, hpa]
  | cons b t ih =>
    by_cases hr : teyGE a b
    · rw [List.orderedInsert_of_le _ _ hr]
      by_cases hpa : a.taxEquivalentYield = q <;>
        simp [List.filter_cons, hpa]
    · have hstep : List.orderedInsert teyGE a (b :: t)
          = b :: List.orderedInsert teyGE a t := by
        simp [List.orderedInsert, hr]
      rw [hstep, List.filter_cons, ih]
      by_cases hpa : a.taxEquivalentYield = q
      · have hpb : ¬ b.taxEquivalentYield = q := by
          intro hbq
          exact hr (le_of_eq (hbq.trans hpa.symm))
        simp [hpa, hpb, List.filter_cons]
      · by_cases hpb : b.taxEquivalentYield = q <;>
          simp [hpa, hpb, List.filter_cons]

/-- The stable descending sort leaves results with any fixed
tax-equivalent yield in their original relative order. -/
theorem filter_sortResults (q : ℚ) (l : List CalcResult) :
    (sortResults l).filter (fun r => decide (r.taxEquivalentYield = q))
      = l.filter (fun r => decide (r.taxEquivalentYield = q)) := by
  induction l with
  | nil => rfl
  | cons a t ih =>
    show (List.orderedInsert teyGE a (List.insertionSort teyGE t)).filter _ = _
    rw [filter_orderedInsert_teyGE]
    by_cases hpa : a.taxEquivalentYield = q
    · rw [if_pos hpa, List.filter_cons]
      simp only [hpa]
      simp only [decide_eq_true_eq, if_pos]
      exact congrArg (List.cons a) ih
    · rw [if_neg hpa, List.filter_cons]
      simp [hpa]
      exact ih

/-- C7: `calculateAllFunds` (frontend and backend) returns one result per
input fund — a permutation of the per-fund map — sorted by
tax-equivalent yield descending (every adjacent pair is ordered), with
ties left in original input order (the filter at any fixed yield equals
the unsorted filter). -/
theorem calculateAllFunds_ranking :
    ∀ (funds : List Fund) (userProfile : UserProfile),
      (∀ i : ℕ, i + 1 < (Frontend.calculateAllFunds funds userProfile).length →
        ((Frontend.calculateAllFunds funds userProfile).getD (i + 1) defaultResult).taxEquivalentYield
          ≤ ((Frontend.calculateAllFunds funds userProfile).getD i defaultResult).taxEquivalentYield)
      ∧ List.Perm (Frontend.calculateAllFunds funds userProfile)
          (funds.map (fun f => Frontend.calculateTaxEquivalentYield f userProfile))
      ∧ (∀ q : ℚ,
          (Frontend.calculateAllFunds funds userProfile).filter
              (fun r => decide (r.taxEquivalentYield = q))
            = (funds.map (fun f => Frontend.calculateTaxEquivalentYield f userProfile)).filter
              (fun r => decide (r.taxEquivalentYield = q)))
      ∧ (∀ i : ℕ, i + 1 < (TaxEngine.calculateAllFunds funds userProfile).length →
        ((TaxEngine.calculateAllFunds funds userProfile).getD (i + 1) defaultResult).taxEquivalentYield
          ≤ ((TaxEngine.calculateAllFunds funds userProfile).getD i defaultResult).taxEquivalentYield)
      ∧ List.Perm (TaxEngine.calculateAllFunds funds userProfile)
          (funds.map (fun f => TaxEngine.calculateTaxEquivalentYield f userProfile))
      ∧ (∀ q : ℚ,
          (TaxEngine.calculateAllFunds funds userProfile).filter
              (fun r => decide (r.taxEquivalentYield = q))
            = (funds.map (fun f => TaxEngine.calculateTaxEquivalentYield f userProfile)).filter
              (fun r => decide (r.taxEquivalentYield = q))) := by
  intro funds userProfile
  have hadj : ∀ l : List CalcResult, ∀ i : ℕ, i + 1 < (sortResults l).length →
      ((sortResults l).getD (i + 1) defaultResult).taxEquivalentYield
        ≤ ((sortResults l).getD i defaultResult).taxEquivalentYield := by
    intro l i hi
    have h1 : i < (sortResults l).length := Nat.lt_of_succ_lt hi
    rw [List.getD_eq_getElem _ _ hi, List.getD_eq_getElem _ _ h1]
    have hs : (sortResults l).Sorted teyGE := List.sorted_insertionSort teyGE l
    exact hs.rel_get_of_lt (a := ⟨i, h1⟩) (b := ⟨i + 1, hi⟩) (by simp)
  exact ⟨hadj _, List.perm_insertionSort teyGE _, fun q => filter_sortResults q _,
    hadj _, List.perm_insertionSort teyGE _, fun q => filter_sortResults q _⟩

/-- Witness for C7 on two concrete funds whose ranking swaps the input
order: the municipal fund's tax-equivalent yield exceeds the taxable
fund's, and the adjacent-order inequality holds at index 0. -/
theorem calculateAllFunds_ranking_witness :
    0 + 1 < (Frontend.calculateAllFunds
        [ { fundName := "a", symbol := "A", category := "taxable",
            grossYield := 2, expenseRatio := 1 },
          { fundName := "b", symbol := "B", category := "municipal",
            grossYield := 25/10, expenseRatio := 0 } ]
        { income := 200000, filingStatus := "single", state := "MO" }).length
    ∧ ((Frontend.calculateAllFunds
        [ { fundName := "a", symbol := "A", category := "taxable",
            grossYield := 2, expenseRatio := 1 },
          { fundName := "b", symbol := "B", category := "municipal",
            grossYield := 25/10, expenseRatio := 0 } ]
        { income := 200000, filingStatus := "single", state := "MO" }).getD (0 + 1)
          defaultResult).taxEquivalentYield
      ≤ ((Frontend.calculateAllFunds
        [ { fundName := "a", symbol := "A", category := "taxable",
            grossYield := 2, expenseRatio := 1 },
          { fundName := "b", symbol := "B", category := "municipal",
            grossYield := 25/10, expenseRatio := 0 } ]
        { income := 200000, filingStatus := "single", state := "MO" }).getD 0
          defaultResult).taxEquivalentYield := by
  refine ⟨by decide, (calculateAllFunds_ranking _ _).1 0 (by decide)⟩

/-- Membership in the deduplication helper: the kept elements are
exactly those of the input not already seen. -/
theorem mem_dedupFirstAux {α : Type} [DecidableEq α] :
    ∀ (l seen : List α) (x : α),
      x ∈ DataUtils.dedupFirstAux l seen ↔ x ∈ l ∧ x ∉ seen := by
  intro l
  induction l with
  | nil => intro seen x; simp [DataUtils.dedupFirstAux]
  | cons a t ih =>
    intro seen x
    by_cases ha : a ∈ seen
    · rw [DataUtils.dedupFirstAux, if_pos ha, ih]
      simp only [List.mem_cons]
      constructor
      · rintro ⟨hx, hs⟩
        exact ⟨Or.inr hx, hs⟩
      · rintro ⟨hor, hs⟩
        rcases hor with rfl | hx
        · exact absurd ha hs
        · exact ⟨hx, hs⟩
    · rw [DataUtils.dedupFirstAux, if_neg ha]
      constructor
      · intro h
        rcases List.mem_cons.mp h with rfl | h2
        · exact ⟨List.mem_cons_self x t, ha⟩
        · obtain ⟨hx, hs⟩ := (ih (a :: seen) x).mp h2
          exact ⟨List.mem_cons_of_mem a hx,
            fun hxs => hs (List.mem_cons_of_mem a hxs)⟩
      · rintro ⟨hmem, hs⟩
        rcases List.mem_cons.mp hmem with rfl | ht
        · exact List.mem_cons_self x _
        · by_cases hxa : x = a
          · subst hxa
            exact List.mem_cons_self x _
          · refine List.mem_cons_of_mem a ((ih (a :: seen) x).mpr ⟨ht, fun hx2 => ?_⟩)
            rcases List.mem_cons.mp hx2 with rfl | hx3
            · exact hxa rfl
            · exact hs hx3

/-- The deduplication helper never repeats an element. -/
theorem nodup_dedupFirstAux {α : Type} [DecidableEq α] :
    ∀ (l seen : List α), (DataUtils.dedupFirstAux l seen).Nodup := by
  intro l
  induction l with
  | nil => intro seen; simp [DataUtils.dedupFirstAux]
  | cons a t ih =>
    intro seen
    by_cases ha : a ∈ seen
    · rw [DataUtils.dedupFirstAux, if_pos ha]
      exact ih seen
    · rw [DataUtils.dedupFirstAux, if_neg ha]
      refine List.nodup_cons.mpr ⟨fun hmem => ?_, ih (a :: seen)⟩
      exact ((mem_dedupFirstAux t (a :: seen) a).mp hmem).2 (List.mem_cons_self a seen)

/-- `dedupFirst` keeps exactly the input's elements. -/
theorem mem_dedupFirst {α : Type} [DecidableEq α] (l : List α) (x : α) :
    x ∈ DataUtils.dedupFirst l ↔ x ∈ l := by
  rw [DataUtils.dedupFirst, mem_dedupFirstAux]
  simp

/-- `dedupFirst` output has no duplicates. -/
theorem nodup_dedupFirst {α : Type} [DecidableEq α] (l : List α) :
    (DataUtils.dedupFirst l).Nodup :=
  nodup_dedupFirstAux l []

/-- Indexed access into a mapped list, through the in-range default. -/
theorem getD_map_of_lt {α β : Type} (f : α → β) (l : List α) (j : ℕ) (hj : j < l.length)
    (dv : α) (dv' : β) : (l.map f).getD j dv' = f (l.getD j dv) := by
  rw [List.getD_eq_getElem (l.map f) dv' (by rw [List.length_map]; exact hj),
    List.getElem_map, List.getD_eq_getElem l dv hj]

/-- C9: for nonempty chart data, `aggregateChartData` emits one key per
distinct category (first-occurrence order), a duplicate-free date axis
holding exactly the input's dates in chronological order, and for every
category an average array aligned 1:1 with the date axis: slot `i` is the
`null` sentinel exactly when no point matches that category and
`dates[i]`, and otherwise the arithmetic mean of `netYield` over the
matching points. -/
theorem aggregateChartData_alignment :
    ∀ dataPoints : List DataUtils.ChartPoint, dataPoints ≠ [] →
      ((DataUtils.aggregateChartData dataPoints).categoryAverages.map Prod.fst
          = DataUtils.dedupFirst (dataPoints.map DataUtils.ChartPoint.category))
      ∧ (DataUtils.aggregateChartData dataPoints).dates.Nodup
      ∧ (∀ d : String, d ∈ (DataUtils.aggregateChartData dataPoints).dates
            ↔ d ∈ dataPoints.map DataUtils.ChartPoint.date)
      ∧ (DataUtils.aggregateChartData dataPoints).dates.Pairwise DataUtils.dateLe
      ∧ ∀ c avgs, (c, avgs) ∈ (DataUtils.aggregateChartData dataPoints).categoryAverages →
          avgs.length = (DataUtils.aggregateChartData dataPoints).dates.length
          ∧ ∀ i : ℕ, i < (DataUtils.aggregateChartData dataPoints).dates.length →
              (avgs.getD i none = none
                ↔ dataPoints.filter (fun d => decide (d.category = c)
                    && decide (d.date = (DataUtils.aggregateChartData dataPoints).dates.getD i ""))
                  = [])
              ∧ (dataPoints.filter (fun d => decide (d.category = c)
                    && decide (d.date = (DataUtils.aggregateChartData dataPoints).dates.getD i ""))
                  ≠ [] →
                avgs.getD i none
                  = some (((dataPoints.filter (fun d => decide (d.category = c)
                        && decide (d.date = (DataUtils.aggregateChartData dataPoints).dates.getD i ""))).map
                          (fun d => d.netYield)).sum
                      / ((dataPoints.filter (fun d => decide (d.category = c)
                        && decide (d.date = (DataUtils.aggregateChartData dataPoints).dates.getD i ""))).length : ℚ))) := by
  intro dataPoints hne
  simp only [DataUtils.aggregateChartData, if_neg hne]
  refine ⟨?_, ?_, ?_, ?_, ?_⟩
  · rw [List.map_map]
    exact List.map_id _
  · exact ((List.perm_insertionSort DataUtils.dateLe _).nodup_iff).mpr
      (nodup_dedupFirst _)
  · intro d
    exact Iff.trans ((List.perm_insertionSort DataUtils.dateLe _).mem_iff)
      (mem_dedupFirst _ d)
  · exact List.sorted_insertionSort DataUtils.dateLe _
  · intro c avgs hmem
    rw [List.mem_map] at hmem
    obtain ⟨cat, hcat, heq⟩ := hmem
    rw [Prod.mk.injEq] at heq
    obtain ⟨rfl, rfl⟩ := heq
    refine ⟨List.length_map _ _, ?_⟩
    intro i hi
    rw [getD_map_of_lt _ _ i hi "" none]
    by_cases hfe : dataPoints.filter (fun d => decide (d.category = cat)
        && decide (d.date = (DataUtils.sortDates (DataUtils.dedupFirst
          (dataPoints.map (fun d => d.date)))).getD i "")) = []
    · rw [if_pos hfe]
      exact ⟨Iff.intro (fun _ => hfe) (fun _ => rfl), fun hc => absurd hfe hc⟩
    · rw [if_neg hfe]
      refine ⟨Iff.intro (fun hnone => absurd hnone (by simp)) (fun hl => absurd hl hfe),
        fun _ => rfl⟩

/-- Witness for C9 on two points in distinct categories on distinct
dates: category "A" has no point on the first (earlier) date, so its
slot 0 is the `null` sentinel, and its slot 1 is the mean of the single
matching point. -/
theorem aggregateChartData_alignment_witness :
    ([ { category := "A", fundName := "x", date := "01-02-2024", netYield := 2 },
        { category := "B", fundName := "y", date := "01-01-2024", netYield := 4 } ]
        : List DataUtils.ChartPoint) ≠ []
    ∧ ([none, some (2:ℚ)].length
        = (DataUtils.aggregateChartData ([ { category := "A", fundName := "x", date := "01-02-2024", netYield := 2 },
        { category := "B", fundName := "y", date := "01-01-2024", netYield := 4 } ]
        : List DataUtils.ChartPoint)).dates.length)
    ∧ (([none, some (2:ℚ)].getD 0 none = none
        ↔ ([ { category := "A", fundName := "x", date := "01-02-2024", netYield := 2 },
        { category := "B", fundName := "y", date := "01-01-2024", netYield := 4 } ]
        : List DataUtils.ChartPoint).filter (fun d => decide (d.category = "A")
            && decide (d.date = (DataUtils.aggregateChartData ([ { category := "A", fundName := "x", date := "01-02-2024", netYield := 2 },
        { category := "B", fundName := "y", date := "01-01-2024", netYield := 4 } ]
        : List DataUtils.ChartPoint)).dates.getD 0 ""))
          = []))
    ∧ ([none, some (2:ℚ)].getD 1 none
        = some (((([ { category := "A", fundName := "x", date := "01-02-2024", netYield := 2 },
        { category := "B", fundName := "y", date := "01-01-2024", netYield := 4 } ]
        : List DataUtils.ChartPoint).filter (fun d => decide (d.category = "A")
              && decide (d.date = (DataUtils.aggregateChartData ([ { category := "A", fundName := "x", date := "01-02-2024", netYield := 2 },
        { category := "B", fundName := "y", date := "01-01-2024", netYield := 4 } ]
        : List DataUtils.ChartPoint)).dates.getD 1 ""))).map
                (fun d => d.netYield)).sum
            / ((([ { category := "A", fundName := "x", date := "01-02-2024", netYield := 2 },
        { category := "B", fundName := "y", date := "01-01-2024", netYield := 4 } ]
        : List DataUtils.ChartPoint).filter (fun d => decide (d.category = "A")
              && decide (d.date = (DataUtils.aggregateChartData ([ { category := "A", fundName := "x", date := "01-02-2024", netYield := 2 },
        { category := "B", fundName := "y", date := "01-01-2024", netYield := 4 } ]
        : List DataUtils.ChartPoint)).dates.getD 1 ""))).length : ℚ))) := by
  refine ⟨by decide, ?_, ?_, ?_⟩
  · exact ((aggregateChartData_alignment ([ { category := "A", fundName := "x", date := "01-02-2024", netYield := 2 },
        { category := "B", fundName := "y", date := "01-01-2024", netYield := 4 } ]
        : List DataUtils.ChartPoint) (by decide)).2.2.2.2 "A" [none, some (2:ℚ)]
      (by decide)).1
  · exact (((aggregateChartData_alignment ([ { category := "A", fundName := "x", date := "01-02-2024", netYield := 2 },
        { category := "B", fundName := "y", date := "01-01-2024", netYield := 4 } ]
        : List DataUtils.ChartPoint) (by decide)).2.2.2.2 "A" [none, some (2:ℚ)]
      (by decide)).2 0 (by decide)).1
  · exact (((aggregateChartData_alignment ([ { category := "A", fundName := "x", date := "01-02-2024", netYield := 2 },
        { category := "B", fundName := "y", date := "01-01-2024", netYield := 4 } ]
        : List DataUtils.ChartPoint) (by decide)).2.2.2.2 "A" [none, some (2:ℚ)]
      (by decide)).2 1 (by decide)).2 (by decide)

/-- The backend and frontend bracket tables agree for every filing
status. -/
theorem bracketsFor_eq (filingStatus : String) :
    TaxEngine.bracketsFor filingStatus = Frontend.bracketsFor filingStatus := by
  unfold TaxEngine.bracketsFor Frontend.bracketsFor
  split_ifs <;> decide

/-- The backend and frontend state-rate tables agree. -/
theorem stateTables_eq : TaxEngine.STATE_TAX_RATES = Frontend.STATE_TAX_RATES := by
  decide

/-- C10: the backend resolver (tax-engine.js) and the frontend resolver
(tax-calculator.js) are extensionally equal: same federal rate for every
income and filing status, same state rate for every state code. -/
theorem resolvers_extensionally_equal :
    (∀ (income : ℚ) (filingStatus : String),
        TaxEngine.calculateFederalMarginalRate income filingStatus
          = Frontend.calculateFederalMarginalRate income filingStatus)
    ∧ ∀ (state : String),
        TaxEngine.calculateStateMarginalRate state
          = Frontend.calculateStateMarginalRate state := by
  constructor
  · intro income filingStatus
    unfold TaxEngine.calculateFederalMarginalRate Frontend.calculateFederalMarginalRate
    rw [bracketsFor_eq]
  · intro state
    unfold TaxEngine.calculateStateMarginalRate Frontend.calculateStateMarginalRate
    rw [stateTables_eq]

end MoneyFundPro
